import Mathlib

/-!
Shallow embedding of the `rubriclab` scripts
(`generate_assignments.py`, `reset.py`, `generate_submissions.py`) and
proofs about their reconciliation behaviour.

The scripts are straight-line loops over configuration lists that issue
remote calls through the Canvas API client.  We embed:

* the configuration records read from `courses.yml`, `assignment.yml`
  and `submissions.yml` as structures (optional keys are `Option`s with
  the defaults of the source applied by accessor functions);
* every fallible remote call as a boolean/optional oracle parameter
  (`createOk nm = false` models `create_assignment` raising
  `CanvasException` for the assignment named `nm`, and so on), so the
  control flow for an arbitrary pattern of remote failures is a pure
  function of the oracles;
* the observable behaviour (console lines for skips / errors, remote
  mutations) as lists of events, and the remote state after a run as a
  list of assignment names.
-/

namespace RubricLab

/-- One entry of `assignment.yml`: optional base name (default
`"Assignment"`), optional `rubric_id`, and the `params` bag that is
passed through to `create_assignment` (modelled as an ordered key/value
list, like a Python dict). -/
structure AssignmentTemplate where
  name : Option String
  rubric_id : Option Nat
  params : List (String × String)
deriving Repr, DecidableEq

/-- One entry of `courses.yml`.  Optional keys are `Option`s; the
defaults (`num_create_assignments` = 1, section names `"Test Students"`
and `"Graders"`) are applied exactly where the source applies them. -/
structure CourseInfo where
  canvas_id : Nat
  name : String
  num_create_assignments : Option Nat
  test_student_section_name : Option String
  grader_section_name : Option String
deriving Repr, DecidableEq

/-- Embeds `assignment.get("name", "Assignment")` (generate_assignments.py line 87,
reset.py line 79). -/
def AssignmentTemplate.baseName (a : AssignmentTemplate) : String :=
  a.name.getD "Assignment"

/-- Embeds `course_info.get("num_create_assignments", 1)` (generate_assignments.py
line 76, reset.py line 81). -/
def CourseInfo.numCreate (c : CourseInfo) : Nat :=
  c.num_create_assignments.getD 1

/-- Embeds the f-string `"{assignment_base_name}{i}"` (generate_assignments.py line 90,
reset.py line 79). -/
def assignmentName (base : String) (i : Nat) : String :=
  base ++ toString i

/-- Python dict lookup on the ordered key/value list model. -/
def dictGet : List (String × String) → String → Option String
  | [], _ => none
  | p :: rest, k => if p.1 = k then some p.2 else dictGet rest k

/-- Python dict assignment `d[k] = v` on the ordered key/value list
model: an existing key keeps its position, a new key is appended. -/
def dictSet : List (String × String) → String → String → List (String × String)
  | [], k, v => [(k, v)]
  | p :: rest, k, v => if p.1 = k then (k, v) :: rest else p :: dictSet rest k v

/-- Per-assignment outcome printed by `generate_assignments.py`:
`skipped` is the "already exists ... skipping creation" line (92-95),
`created` the success line (113-115), `failed` the `CanvasException`
line of the per-assignment `except` (116-119). -/
inductive AEvent
  | skipped (nm : String)
  | created (nm : String)
  | failed (nm : String)
deriving Repr, DecidableEq

/-- The assignment name an outcome is about. -/
def AEvent.nameOf : AEvent → String
  | .skipped nm => nm
  | .created nm => nm
  | .failed nm => nm

/-- The body of the replica loop of `generate_assignments.py`
(lines 89-119) for template `a`, replica index `i`, against the
snapshot `existing` of assignment names taken once per course
(line 84).  `createOk nm = false` models `create_assignment` raising a
`CanvasException`; `assocOk nm = false` models
`create_rubric_association` raising.  Both calls sit inside one `try`
block, so a failure of either produces the single error line. -/
def ensureOne (createOk assocOk : String → Bool) (existing : List String)
    (a : AssignmentTemplate) (i : Nat) : AEvent :=
  let nm := assignmentName a.baseName i
  if nm ∈ existing then .skipped nm
  else if createOk nm then
    match a.rubric_id with
    | some _ => if assocOk nm then .created nm else .failed nm
    | none => .created nm
  else .failed nm

/-- The sequence of assignment names the template/replica loop of
`generate_assignments.py` (lines 86-90) walks through: templates in
config order, replicas `i = 1..n` (embedded as `k+1` for
`k ∈ range n`). -/
def generatedNames (assignment_list : List AssignmentTemplate) (n : Nat) : List String :=
  assignment_list.flatMap (fun a =>
    (List.range n).map (fun k => assignmentName a.baseName (k + 1)))

/-- Operation `ensure_assignments` for one course (generate_assignments.py lines
84-119): the list of per-assignment outcomes, and the remote state
after the run.  The existence check is made against the snapshot taken
before the loop, never refreshed.  An assignment exists remotely after
the run iff it already existed or its `create_assignment` call
succeeded (a rubric-association failure does not remove the created
assignment). -/
def ensure_assignments (createOk assocOk : String → Bool) (existing : List String)
    (assignment_list : List AssignmentTemplate) (n : Nat) :
    List AEvent × List String :=
  (assignment_list.flatMap (fun a =>
      (List.range n).map (fun k => ensureOne createOk assocOk existing a (k + 1))),
   existing ++ assignment_list.flatMap (fun a =>
      (List.range n).filterMap (fun k =>
        let nm := assignmentName a.baseName (k + 1)
        if nm ∈ existing then none
        else if createOk nm then some nm else none)))

lemma ensure_assignments_fst (createOk assocOk : String → Bool) (existing : List String)
    (ts : List AssignmentTemplate) (n : Nat) :
    (ensure_assignments createOk assocOk existing ts n).1
      = ts.flatMap (fun a =>
          (List.range n).map (fun k => ensureOne createOk assocOk existing a (k + 1))) :=
  rfl

lemma ensureOne_nameOf (createOk assocOk : String → Bool) (existing : List String)
    (a : AssignmentTemplate) (i : Nat) :
    (ensureOne createOk assocOk existing a i).nameOf = assignmentName a.baseName i := by
  unfold ensureOne
  by_cases h1 : assignmentName a.baseName i ∈ existing
  · simp [h1, AEvent.nameOf]
  · by_cases h2 : createOk (assignmentName a.baseName i)
    · cases hr : a.rubric_id with
      | some r =>
          by_cases h3 : assocOk (assignmentName a.baseName i) <;>
            simp [h1, h2, h3, hr, AEvent.nameOf]
      | none => simp [h1, h2, hr, AEvent.nameOf]
    · simp [h1, h2, AEvent.nameOf]

/-- The outcome list of one `ensure_assignments` run names exactly the
generated name sequence, for every failure pattern. -/
lemma ensure_events_map_nameOf (createOk assocOk : String → Bool) (existing : List String)
    (ts : List AssignmentTemplate) (n : Nat) :
    (ensure_assignments createOk assocOk existing ts n).1.map AEvent.nameOf
      = generatedNames ts n := by
  unfold ensure_assignments generatedNames
  rw [List.map_flatMap]
  refine List.flatMap_congr ?_
  intro a _
  rw [List.map_map]
  refine List.map_congr_left ?_
  intro k _
  exact ensureOne_nameOf createOk assocOk existing a (k + 1)

lemma mem_generatedNames {ts : List AssignmentTemplate} {n : Nat} {nm : String} :
    nm ∈ generatedNames ts n
      ↔ ∃ a ∈ ts, ∃ k, k < n ∧ nm = assignmentName a.baseName (k + 1) := by
  unfold generatedNames
  simp only [List.mem_flatMap, List.mem_map, List.mem_range]
  constructor
  · rintro ⟨a, ha, k, hk, rfl⟩
    exact ⟨a, ha, k, hk, rfl⟩
  · rintro ⟨a, ha, k, hk, rfl⟩
    exact ⟨a, ha, k, hk, rfl⟩

/-- C2: the sequence of assignment names considered by
`ensure_assignments` is exactly `{base}{1}, ..., {base}{N}` for each
template, templates in config order and replica index increasing from 1
to `N`, where `N` is the `num_create_assignments` of the course defaulting
to 1 and the base name defaults to `"Assignment"` — for every failure
pattern and every remote snapshot. -/
theorem assignment_name_sequence_deterministic
    (createOk assocOk : String → Bool) (existing : List String)
    (ts : List AssignmentTemplate) (c : CourseInfo) :
    (ensure_assignments createOk assocOk existing ts c.numCreate).1.map AEvent.nameOf
      = ts.flatMap (fun t =>
          (List.range' 1 (c.num_create_assignments.getD 1)).map
            (fun i => (t.name.getD "Assignment") ++ toString i)) := by
  rw [ensure_events_map_nameOf]
  unfold generatedNames
  refine List.flatMap_congr ?_
  intro a _
  rw [List.range'_eq_map_range, List.map_map]
  refine List.map_congr_left ?_
  intro k _
  simp [assignmentName, AssignmentTemplate.baseName, CourseInfo.numCreate,
    Function.comp, Nat.add_comm]

/-- After a run whose `create_assignment` calls all succeed, every
generated name is present in the resulting remote state. -/
lemma generated_mem_state (createOk assocOk : String → Bool) (existing : List String)
    (ts : List AssignmentTemplate) (n : Nat)
    (hok : ∀ nm ∈ generatedNames ts n, createOk nm = true) :
    ∀ nm ∈ generatedNames ts n,
      nm ∈ (ensure_assignments createOk assocOk existing ts n).2 := by
  intro nm hnm
  obtain ⟨a, ha, k, hk, rfl⟩ := mem_generatedNames.mp hnm
  unfold ensure_assignments
  simp only [List.mem_append]
  by_cases hex : assignmentName a.baseName (k + 1) ∈ existing
  · exact Or.inl hex
  · refine Or.inr (List.mem_flatMap.mpr ⟨a, ha, List.mem_filterMap.mpr ⟨k, ?_, ?_⟩⟩)
    · exact List.mem_range.mpr hk
    · simp only [hex, if_false, hok _ hnm, if_true]

/-- C1: idempotence of assignment provisioning.  If `ensure_assignments`
is run once (with every `create_assignment` call succeeding) and then run
a second time against the resulting remote state, the outcome list
of the second run is exactly one skip per template × replica name — in
particular it contains no creation, for any failure pattern of the
second run. -/
theorem ensure_assignments_idempotent
    (createOk assocOk createOk2 assocOk2 : String → Bool) (existing : List String)
    (ts : List AssignmentTemplate) (n : Nat)
    (hok : ∀ nm ∈ generatedNames ts n, createOk nm = true) :
    (ensure_assignments createOk2 assocOk2
        (ensure_assignments createOk assocOk existing ts n).2 ts n).1
      = (generatedNames ts n).map AEvent.skipped
    ∧ ∀ nm, AEvent.created nm ∉ (ensure_assignments createOk2 assocOk2
        (ensure_assignments createOk assocOk existing ts n).2 ts n).1 := by
  have hmain : (ensure_assignments createOk2 assocOk2
      (ensure_assignments createOk assocOk existing ts n).2 ts n).1
      = (generatedNames ts n).map AEvent.skipped := by
    unfold generatedNames
    rw [List.map_flatMap, ensure_assignments_fst]
    refine List.flatMap_congr ?_
    intro a ha
    rw [List.map_map]
    refine List.map_congr_left ?_
    intro k hk
    have hmem : assignmentName a.baseName (k + 1)
        ∈ (ensure_assignments createOk assocOk existing ts n).2 := by
      refine generated_mem_state createOk assocOk existing ts n hok _ ?_
      exact mem_generatedNames.mpr ⟨a, ha, k, List.mem_range.mp hk, rfl⟩
    simp only [ensureOne]
    rw [if_pos hmem]
    simp [Function.comp]
  refine ⟨hmain, ?_⟩
  intro nm hmem
  rw [hmain] at hmem
  obtain ⟨x, _, hx⟩ := List.mem_map.mp hmem
  exact AEvent.noConfusion hx

/-- C1 witness: one course with `N = 2`, one template `"Grading"`, empty
initial remote state, all creates succeeding. -/
theorem ensure_assignments_idempotent_witness :
    (∀ nm ∈ generatedNames [⟨some "Grading", none, []⟩] 2, (fun _ => true) nm = true)
    ∧ ((ensure_assignments (fun _ => true) (fun _ => true)
          (ensure_assignments (fun _ => true) (fun _ => true) []
            [⟨some "Grading", none, []⟩] 2).2 [⟨some "Grading", none, []⟩] 2).1
        = (generatedNames [⟨some "Grading", none, []⟩] 2).map AEvent.skipped
      ∧ ∀ nm, AEvent.created nm ∉ (ensure_assignments (fun _ => true) (fun _ => true)
          (ensure_assignments (fun _ => true) (fun _ => true) []
            [⟨some "Grading", none, []⟩] 2).2 [⟨some "Grading", none, []⟩] 2).1) :=
  ⟨by intro nm _; rfl,
   ensure_assignments_idempotent (fun _ => true) (fun _ => true) (fun _ => true)
     (fun _ => true) [] [⟨some "Grading", none, []⟩] 2 (by intro nm _; rfl)⟩

lemma ensure_assignments_snd (createOk assocOk : String → Bool) (existing : List String)
    (ts : List AssignmentTemplate) (n : Nat) :
    (ensure_assignments createOk assocOk existing ts n).2
      = existing ++ ts.flatMap (fun a =>
          (List.range n).filterMap (fun k =>
            if assignmentName a.baseName (k + 1) ∈ existing then none
            else if createOk (assignmentName a.baseName (k + 1)) then
              some (assignmentName a.baseName (k + 1))
            else none)) :=
  rfl

lemma mem_ensure_snd (createOk assocOk : String → Bool) (existing : List String)
    (ts : List AssignmentTemplate) (n : Nat) (nm : String)
    (h : nm ∈ (ensure_assignments createOk assocOk existing ts n).2) :
    nm ∈ existing ∨ nm ∈ generatedNames ts n := by
  rw [ensure_assignments_snd] at h
  rcases List.mem_append.mp h with h | h
  · exact Or.inl h
  · right
    obtain ⟨a, ha, h⟩ := List.mem_flatMap.mp h
    obtain ⟨k, hk, heq⟩ := List.mem_filterMap.mp h
    refine mem_generatedNames.mpr ⟨a, ha, k, List.mem_range.mp hk, ?_⟩
    split at heq
    · exact absurd heq (by simp)
    · split at heq
      · exact (Option.some_inj.mp heq).symm
      · exact absurd heq (by simp)

/-- Embeds `assignments_to_delete` (reset.py lines 78-82): the deletion target
list, one name per template × replica, templates in config order,
`i = 1..num_create_assignments` (default 1). -/
def assignments_to_delete (assignment_list : List AssignmentTemplate)
    (course_info : CourseInfo) : List String :=
  assignment_list.flatMap (fun a =>
    (List.range course_info.numCreate).map (fun k => assignmentName a.baseName (k + 1)))

/-- Remote assignment names remaining after the deletion loop of
reset.py (lines 85-91): an assignment is removed iff its name is in the
target list and its `delete()` call succeeded (`deleteOk`); a failed
delete leaves it in place. -/
def resetAssignments (deleteOk : String → Bool) (remote targets : List String) :
    List String :=
  remote.filter (fun nm => if nm ∈ targets then !deleteOk nm else true)

/-- C3: reset symmetry.  For identical configuration (same template list
and same course entry), the deletion target list computed by `reset`
equals the creation name list computed by `ensure_assignments`, and
deleting then re-creating (with all creates succeeding) yields a remote
state whose membership is the old one extended by the generated names —
in particular, when the generated names were already present, exactly
the same name set. -/
theorem reset_symmetry (ts : List AssignmentTemplate) (c : CourseInfo)
    (remote : List String) (deleteOk createOk assocOk : String → Bool)
    (hcr : ∀ nm, createOk nm = true) :
    assignments_to_delete ts c = generatedNames ts c.numCreate
    ∧ (∀ nm, nm ∈ (ensure_assignments createOk assocOk
          (resetAssignments deleteOk remote (assignments_to_delete ts c)) ts c.numCreate).2
        ↔ (nm ∈ remote ∨ nm ∈ generatedNames ts c.numCreate))
    ∧ ((∀ nm ∈ generatedNames ts c.numCreate, nm ∈ remote) →
        ∀ nm, nm ∈ (ensure_assignments createOk assocOk
            (resetAssignments deleteOk remote (assignments_to_delete ts c)) ts c.numCreate).2
          ↔ nm ∈ remote) := by
  have heq : assignments_to_delete ts c = generatedNames ts c.numCreate := rfl
  have hiff : ∀ nm, nm ∈ (ensure_assignments createOk assocOk
      (resetAssignments deleteOk remote (assignments_to_delete ts c)) ts c.numCreate).2
      ↔ (nm ∈ remote ∨ nm ∈ generatedNames ts c.numCreate) := by
    intro nm
    constructor
    · intro h
      rcases mem_ensure_snd _ _ _ _ _ _ h with h | h
      · exact Or.inl (List.mem_filter.mp h).1
      · exact Or.inr h
    · intro h
      by_cases hg : nm ∈ generatedNames ts c.numCreate
      · exact generated_mem_state _ _ _ _ _ (fun nm _ => hcr nm) nm hg
      · rcases h with h | h
        · rw [ensure_assignments_snd]
          refine List.mem_append.mpr (Or.inl (List.mem_filter.mpr ⟨h, ?_⟩))
          rw [heq, if_neg hg]
        · exact absurd h hg
  refine ⟨heq, hiff, ?_⟩
  intro hsub nm
  rw [hiff nm]
  constructor
  · rintro (h | h)
    · exact h
    · exact hsub nm h
  · exact Or.inl

/-- C3 witness: one template `"Grading"`, `N = 2`, remote state already
holding both generated names plus an unmanaged assignment. -/
theorem reset_symmetry_witness :
    (∀ nm : String, (fun _ => true) nm = true)
    ∧ (assignments_to_delete [⟨some "Grading", none, []⟩] ⟨101, "C", some 2, none, none⟩
        = generatedNames [⟨some "Grading", none, []⟩]
            (CourseInfo.numCreate ⟨101, "C", some 2, none, none⟩)
      ∧ (∀ nm, nm ∈ (ensure_assignments (fun _ => true) (fun _ => true)
            (resetAssignments (fun _ => true) ["Grading1", "Grading2", "Other"]
              (assignments_to_delete [⟨some "Grading", none, []⟩]
                ⟨101, "C", some 2, none, none⟩))
            [⟨some "Grading", none, []⟩]
            (CourseInfo.numCreate ⟨101, "C", some 2, none, none⟩)).2
          ↔ (nm ∈ ["Grading1", "Grading2", "Other"]
              ∨ nm ∈ generatedNames [⟨some "Grading", none, []⟩]
                  (CourseInfo.numCreate ⟨101, "C", some 2, none, none⟩)))
      ∧ ((∀ nm ∈ generatedNames [⟨some "Grading", none, []⟩]
            (CourseInfo.numCreate ⟨101, "C", some 2, none, none⟩),
            nm ∈ ["Grading1", "Grading2", "Other"]) →
          ∀ nm, nm ∈ (ensure_assignments (fun _ => true) (fun _ => true)
              (resetAssignments (fun _ => true) ["Grading1", "Grading2", "Other"]
                (assignments_to_delete [⟨some "Grading", none, []⟩]
                  ⟨101, "C", some 2, none, none⟩))
              [⟨some "Grading", none, []⟩]
              (CourseInfo.numCreate ⟨101, "C", some 2, none, none⟩)).2
            ↔ nm ∈ ["Grading1", "Grading2", "Other"])) :=
  ⟨fun _ => rfl,
   reset_symmetry [⟨some "Grading", none, []⟩] ⟨101, "C", some 2, none, none⟩
     ["Grading1", "Grading2", "Other"] (fun _ => true) (fun _ => true) (fun _ => true)
     (fun _ => rfl)⟩

/-- One console line of the course loop of `generate_assignments.py`
(lines 73-119): either the `get_course` error followed by `continue`
(lines 80-82) or a per-assignment outcome tagged with the course. -/
inductive RunEvent
  | courseError (cid : Nat) (courseName : String)
  | assign (cid : Nat) (courseName : String) (e : AEvent)
deriving Repr, DecidableEq

/-- Which entity a run event concerns: the course, and the assignment
name when it is a per-assignment outcome. -/
def RunEvent.key : RunEvent → Nat × String × Option String
  | .courseError cid cn => (cid, cn, none)
  | .assign cid cn e => (cid, cn, some e.nameOf)

/-- The whole course loop of `generate_assignments.py` (lines 73-119):
per course, either a course-level error (the course is skipped) or the
outcomes of `ensure_assignments` against the snapshot of that course.
`getCourseOk cid = false` models `get_course` raising; the per-name
oracles are indexed by course id. -/
def runGenerateAssignments (getCourseOk : Nat → Bool) (remoteOf : Nat → List String)
    (createOk assocOk : Nat → String → Bool)
    (course_list : List CourseInfo) (assignment_list : List AssignmentTemplate) :
    List RunEvent :=
  course_list.flatMap (fun c =>
    if getCourseOk c.canvas_id then
      (ensure_assignments (createOk c.canvas_id) (assocOk c.canvas_id)
        (remoteOf c.canvas_id) assignment_list c.numCreate).1.map
        (RunEvent.assign c.canvas_id c.name)
    else [RunEvent.courseError c.canvas_id c.name])

/-- Lemma: `ensureOne` consults the oracles only at its own generated name. -/
lemma ensureOne_congr (createOk assocOk createOk2 assocOk2 : String → Bool)
    (existing : List String) (a : AssignmentTemplate) (i : Nat)
    (hc : createOk2 (assignmentName a.baseName i) = createOk (assignmentName a.baseName i))
    (ha : assocOk2 (assignmentName a.baseName i) = assocOk (assignmentName a.baseName i)) :
    ensureOne createOk2 assocOk2 existing a i = ensureOne createOk assocOk existing a i := by
  simp only [ensureOne, hc, ha]

/-- C4: partial-failure isolation in assignment creation.  For any two
`create_assignment` failure patterns that differ only at one
course × assignment name, (a) the sequence of entities the run walks
through — courses in order, and per course every template × replica
name in order — is identical, so no attempt is skipped as a side effect
of a failure, and (b) every per-assignment outcome that does not
concern the differing entity is recorded unchanged (the failure is
recorded for that one entity only). -/
theorem failure_isolation_per_entity
    (getCourseOk : Nat → Bool) (remoteOf : Nat → List String)
    (createOk createOk2 assocOk : Nat → String → Bool)
    (cs : List CourseInfo) (ts : List AssignmentTemplate) (cid0 : Nat) (nm0 : String)
    (hc : ∀ cid nm, ¬(cid = cid0 ∧ nm = nm0) → createOk2 cid nm = createOk cid nm) :
    ((runGenerateAssignments getCourseOk remoteOf createOk assocOk cs ts).map RunEvent.key
      = (runGenerateAssignments getCourseOk remoteOf createOk2 assocOk cs ts).map
          RunEvent.key)
    ∧ (∀ cid cn e, RunEvent.assign cid cn e
          ∈ runGenerateAssignments getCourseOk remoteOf createOk assocOk cs ts →
        ¬(cid = cid0 ∧ e.nameOf = nm0) →
        RunEvent.assign cid cn e
          ∈ runGenerateAssignments getCourseOk remoteOf createOk2 assocOk cs ts) := by
  constructor
  · unfold runGenerateAssignments
    rw [List.map_flatMap, List.map_flatMap]
    refine List.flatMap_congr ?_
    intro c _
    by_cases hg : getCourseOk c.canvas_id
    · simp only [hg, if_true]
      have h1 : ∀ ck ak : String → Bool,
          ((ensure_assignments ck ak (remoteOf c.canvas_id) ts c.numCreate).1.map
            (RunEvent.assign c.canvas_id c.name)).map RunEvent.key
          = (generatedNames ts c.numCreate).map
              (fun nm => (c.canvas_id, c.name, some nm)) := by
        intro ck ak
        rw [List.map_map,
          show (RunEvent.key ∘ RunEvent.assign c.canvas_id c.name)
            = (fun nm => (c.canvas_id, c.name, some nm)) ∘ AEvent.nameOf from rfl,
          ← List.map_map, ensure_events_map_nameOf]
      rw [h1, h1]
    · simp [hg]
  · intro cid cn e hmem hne
    unfold runGenerateAssignments at hmem ⊢
    obtain ⟨c, hcmem, hchunk⟩ := List.mem_flatMap.mp hmem
    refine List.mem_flatMap.mpr ⟨c, hcmem, ?_⟩
    by_cases hg : getCourseOk c.canvas_id
    · rw [if_pos hg] at hchunk ⊢
      obtain ⟨e', he', heq⟩ := List.mem_map.mp hchunk
      injection heq with hcid hcn he2
      subst hcid
      subst hcn
      subst he2
      rw [ensure_assignments_fst] at he'
      obtain ⟨a, hat, he'⟩ := List.mem_flatMap.mp he'
      obtain ⟨k, hk, hek⟩ := List.mem_map.mp he'
      refine List.mem_map.mpr ⟨e', ?_, rfl⟩
      rw [ensure_assignments_fst]
      refine List.mem_flatMap.mpr ⟨a, hat, List.mem_map.mpr ⟨k, hk, ?_⟩⟩
      rw [ensureOne_congr (createOk c.canvas_id) (assocOk c.canvas_id)
        (createOk2 c.canvas_id) (assocOk c.canvas_id) _ a (k + 1) ?_ rfl]
      · exact hek
      · refine hc c.canvas_id (assignmentName a.baseName (k + 1)) ?_
        rintro ⟨h1, h2⟩
        refine hne ⟨h1, ?_⟩
        rw [← hek, ensureOne_nameOf]
        exact h2
    · rw [if_neg hg] at hchunk
      simp at hchunk

/-- C4 witness: two courses, one template with `N = 2`; the second
failure pattern makes `create_assignment` fail exactly for `"A2"` in
course 7. -/
theorem failure_isolation_per_entity_witness :
    (∀ cid nm, ¬(cid = 7 ∧ nm = "A2") →
      (fun cid nm => !(cid == 7 && nm == "A2")) cid nm = (fun _ _ => true) cid nm)
    ∧ (((runGenerateAssignments (fun _ => true) (fun _ => []) (fun _ _ => true)
          (fun _ _ => true)
          [⟨7, "CourseA", some 2, none, none⟩, ⟨8, "CourseB", some 2, none, none⟩]
          [⟨some "A", none, []⟩]).map RunEvent.key
        = ((runGenerateAssignments (fun _ => true) (fun _ => [])
            (fun cid nm => !(cid == 7 && nm == "A2")) (fun _ _ => true)
            [⟨7, "CourseA", some 2, none, none⟩, ⟨8, "CourseB", some 2, none, none⟩]
            [⟨some "A", none, []⟩]).map RunEvent.key))
      ∧ (∀ cid cn e, RunEvent.assign cid cn e
            ∈ runGenerateAssignments (fun _ => true) (fun _ => []) (fun _ _ => true)
              (fun _ _ => true)
              [⟨7, "CourseA", some 2, none, none⟩, ⟨8, "CourseB", some 2, none, none⟩]
              [⟨some "A", none, []⟩] →
          ¬(cid = 7 ∧ e.nameOf = "A2") →
          RunEvent.assign cid cn e
            ∈ runGenerateAssignments (fun _ => true) (fun _ => [])
              (fun cid nm => !(cid == 7 && nm == "A2")) (fun _ _ => true)
              [⟨7, "CourseA", some 2, none, none⟩, ⟨8, "CourseB", some 2, none, none⟩]
              [⟨some "A", none, []⟩])) :=
  ⟨by
    intro cid nm h
    simp only [Bool.not_eq_true', Bool.and_eq_false_iff, beq_eq_false_iff_ne, ne_eq]
    by_cases h1 : cid = 7
    · exact Or.inr (fun h2 => h ⟨h1, h2⟩)
    · exact Or.inl h1,
   failure_isolation_per_entity (fun _ => true) (fun _ => []) (fun _ _ => true)
     (fun cid nm => !(cid == 7 && nm == "A2")) (fun _ _ => true)
     [⟨7, "CourseA", some 2, none, none⟩, ⟨8, "CourseB", some 2, none, none⟩]
     [⟨some "A", none, []⟩] 7 "A2"
     (by
       intro cid nm h
       simp only [Bool.not_eq_true', Bool.and_eq_false_iff, beq_eq_false_iff_ne, ne_eq]
       by_cases h1 : cid = 7
       · exact Or.inr (fun h2 => h ⟨h1, h2⟩)
       · exact Or.inl h1)⟩

/-- C6: independent error capture per assignment instance.  For a
template × replica (replica index `k + 1`) whose name is not in the
snapshot: a `create_assignment` failure is recorded as `failed(name)`;
a `create_rubric_association` failure (attempted only when the template
has a `rubric_id`) is likewise recorded as `failed(name)`; on success of
both (or of the create alone when there is no rubric) `created(name)` is
recorded — and in every case the run still walks through every other
template × replica name (first conjunct), so neither failure aborts the
remaining attempts. -/
theorem create_and_association_capture
    (createOk assocOk : String → Bool) (existing : List String)
    (ts : List AssignmentTemplate) (n : Nat) (a : AssignmentTemplate) (k : Nat)
    (hat : a ∈ ts) (hk : k < n)
    (hnew : assignmentName a.baseName (k + 1) ∉ existing) :
    ((ensure_assignments createOk assocOk existing ts n).1.map AEvent.nameOf
        = generatedNames ts n)
    ∧ (createOk (assignmentName a.baseName (k + 1)) = false →
        AEvent.failed (assignmentName a.baseName (k + 1))
          ∈ (ensure_assignments createOk assocOk existing ts n).1)
    ∧ (createOk (assignmentName a.baseName (k + 1)) = true → a.rubric_id ≠ none →
        assocOk (assignmentName a.baseName (k + 1)) = false →
        AEvent.failed (assignmentName a.baseName (k + 1))
          ∈ (ensure_assignments createOk assocOk existing ts n).1)
    ∧ (createOk (assignmentName a.baseName (k + 1)) = true →
        (a.rubric_id = none ∨ assocOk (assignmentName a.baseName (k + 1)) = true) →
        AEvent.created (assignmentName a.baseName (k + 1))
          ∈ (ensure_assignments createOk assocOk existing ts n).1) := by
  have hmem : ensureOne createOk assocOk existing a (k + 1)
      ∈ (ensure_assignments createOk assocOk existing ts n).1 := by
    rw [ensure_assignments_fst]
    exact List.mem_flatMap.mpr ⟨a, hat, List.mem_map.mpr ⟨k, List.mem_range.mpr hk, rfl⟩⟩
  refine ⟨ensure_events_map_nameOf createOk assocOk existing ts n, ?_, ?_, ?_⟩
  · intro hcf
    have heq : ensureOne createOk assocOk existing a (k + 1)
        = AEvent.failed (assignmentName a.baseName (k + 1)) := by
      simp [ensureOne, hnew, hcf]
    rwa [heq] at hmem
  · intro hct hrb haf
    obtain ⟨r, hr⟩ := Option.ne_none_iff_exists'.mp hrb
    have heq : ensureOne createOk assocOk existing a (k + 1)
        = AEvent.failed (assignmentName a.baseName (k + 1)) := by
      simp [ensureOne, hnew, hct, haf, hr]
    rwa [heq] at hmem
  · intro hct hd
    have heq : ensureOne createOk assocOk existing a (k + 1)
        = AEvent.created (assignmentName a.baseName (k + 1)) := by
      rcases hd with hr | hasc
      · simp [ensureOne, hnew, hct, hr]
      · cases hr : a.rubric_id with
        | some r => simp [ensureOne, hnew, hct, hasc, hr]
        | none => simp [ensureOne, hnew, hct, hr]
    rwa [heq] at hmem

/-- C6 witness: one template `"A"` with a rubric id, `N = 1`, empty
snapshot, create succeeding and rubric association failing. -/
theorem create_and_association_capture_witness :
    ((⟨some "A", some 5, []⟩ : AssignmentTemplate) ∈ [(⟨some "A", some 5, []⟩ : AssignmentTemplate)]
      ∧ 0 < 1
      ∧ assignmentName (AssignmentTemplate.baseName ⟨some "A", some 5, []⟩) 1 ∉ ([] : List String))
    ∧ (((ensure_assignments (fun _ => true) (fun _ => false) []
          [⟨some "A", some 5, []⟩] 1).1.map AEvent.nameOf
        = generatedNames [⟨some "A", some 5, []⟩] 1)
      ∧ ((fun _ => true) (assignmentName (AssignmentTemplate.baseName ⟨some "A", some 5, []⟩) 1) = false →
          AEvent.failed (assignmentName (AssignmentTemplate.baseName ⟨some "A", some 5, []⟩) 1)
            ∈ (ensure_assignments (fun _ => true) (fun _ => false) []
                [⟨some "A", some 5, []⟩] 1).1)
      ∧ ((fun _ => true) (assignmentName (AssignmentTemplate.baseName ⟨some "A", some 5, []⟩) 1) = true →
          (AssignmentTemplate.rubric_id ⟨some "A", some 5, []⟩) ≠ none →
          (fun _ => false) (assignmentName (AssignmentTemplate.baseName ⟨some "A", some 5, []⟩) 1) = false →
          AEvent.failed (assignmentName (AssignmentTemplate.baseName ⟨some "A", some 5, []⟩) 1)
            ∈ (ensure_assignments (fun _ => true) (fun _ => false) []
                [⟨some "A", some 5, []⟩] 1).1)
      ∧ ((fun _ => true) (assignmentName (AssignmentTemplate.baseName ⟨some "A", some 5, []⟩) 1) = true →
          ((AssignmentTemplate.rubric_id ⟨some "A", some 5, []⟩) = none
            ∨ (fun _ => false) (assignmentName (AssignmentTemplate.baseName ⟨some "A", some 5, []⟩) 1) = true) →
          AEvent.created (assignmentName (AssignmentTemplate.baseName ⟨some "A", some 5, []⟩) 1)
            ∈ (ensure_assignments (fun _ => true) (fun _ => false) []
                [⟨some "A", some 5, []⟩] 1).1)) :=
  ⟨⟨by simp, by decide, by simp⟩,
   create_and_association_capture (fun _ => true) (fun _ => false) []
     [⟨some "A", some 5, []⟩] 1 ⟨some "A", some 5, []⟩ 0
     (by simp) (by decide) (by simp)⟩

lemma dictGet_dictSet_self (d : List (String × String)) (k v : String) :
    dictGet (dictSet d k v) k = some v := by
  induction d with
  | nil => simp [dictSet, dictGet]
  | cons p rest ih =>
      by_cases h : p.1 = k
      · simp [dictSet, dictGet, h]
      · simp [dictSet, dictGet, h, ih]

lemma dictGet_dictSet_other (d : List (String × String)) (k v k2 : String)
    (hk : k2 ≠ k) :
    dictGet (dictSet d k v) k2 = dictGet d k2 := by
  induction d with
  | nil => simp [dictSet, dictGet, Ne.symm hk]
  | cons p rest ih =>
      by_cases h : p.1 = k
      · simp [dictSet, dictGet, h, Ne.symm hk]
      · simp [dictSet, dictGet, h, ih]

/-- The params dict passed to `create_assignment` for replica `i` of a
template (generate_assignments.py lines 97-98): the source takes a copy
of the `params` bag of the template (`assignment.get("params", {}).copy()` —
a missing `params` key is the empty bag) and sets `"name"` on the copy,
so the bag sent is the bag of the template with the name key set and the
own bag of the template is never written to. -/
def create_params (a : AssignmentTemplate) (i : Nat) : List (String × String) :=
  dictSet a.params "name" (assignmentName a.baseName i)

/-- C9: the template parameter bag is never mutated.  The bag sent to
`create_assignment` for replica `i` carries the generated name under
`"name"` and agrees with the own (untouched) bag of the template on every
other key; consequently any two replicas of the same template are
created from identical params except for the name. -/
theorem template_params_not_mutated (a : AssignmentTemplate) (i j : Nat) (k : String)
    (hk : k ≠ "name") :
    dictGet (create_params a i) "name" = some (assignmentName a.baseName i)
    ∧ dictGet (create_params a i) k = dictGet a.params k
    ∧ dictGet (create_params a i) k = dictGet (create_params a j) k := by
  refine ⟨dictGet_dictSet_self _ _ _, dictGet_dictSet_other _ _ _ _ hk, ?_⟩
  unfold create_params
  rw [dictGet_dictSet_other _ _ _ _ hk, dictGet_dictSet_other _ _ _ _ hk]

/-- C9 witness: a template with a `points_possible` param, replicas 1
and 2, checked on the `points_possible` key. -/
theorem template_params_not_mutated_witness :
    ("points_possible" ≠ "name")
    ∧ (dictGet (create_params ⟨some "A", none, [("points_possible", "10")]⟩ 1) "name"
        = some (assignmentName (AssignmentTemplate.baseName
            ⟨some "A", none, [("points_possible", "10")]⟩) 1)
      ∧ dictGet (create_params ⟨some "A", none, [("points_possible", "10")]⟩ 1)
          "points_possible"
        = dictGet (AssignmentTemplate.params ⟨some "A", none, [("points_possible", "10")]⟩)
            "points_possible"
      ∧ dictGet (create_params ⟨some "A", none, [("points_possible", "10")]⟩ 1)
          "points_possible"
        = dictGet (create_params ⟨some "A", none, [("points_possible", "10")]⟩ 2)
            "points_possible") :=
  ⟨by decide,
   template_params_not_mutated ⟨some "A", none, [("points_possible", "10")]⟩ 1 2
     "points_possible" (by decide)⟩

/-- Embeds the `ASSIGNMENT_TYPE` constant of generate_submissions.py (line 44). -/
def ASSIGNMENT_TYPE : String := "online_text_entry"

/-- A remote assignment as observed by generate_submissions.py: its
name and its `submission_types` list. -/
structure RemoteAssignment where
  name : String
  submission_types : List String
deriving Repr, DecidableEq

/-- One entry of `submissions.yml`: the `sis_login_id` and the
`submission_params` bag (another ordered key/value dict). -/
structure SubmissionSpec where
  sis_login_id : String
  submission_params : List (String × String)
deriving Repr, DecidableEq

/-- Console/API outcomes of generate_submissions.py.
`sectionMissing` is produced only by the spec-modelled
`enroll_and_submit` variant below. -/
inductive SEvent
  | courseError (cid : Nat) (courseName : String)
  | userError (sis : String)
  | enrolled (sis : String)
  | submitted (aname sis : String)
  | submitError (aname sis : String)
  | fetchError
  | sectionMissing (sectionName : String)
deriving Repr, DecidableEq

/-- The body of the enrollment loop (generate_submissions.py lines
99-108) for one submission spec: `get_user` by SIS login id
(`resolveUser` returning `none` models `get_user` raising a
`CanvasException`), then `enroll_user` (`enrollOk ... = false` models
it raising).  Only when both succeed is the resolved user id written
into the `submission_params` bag of the spec under `"user_id"` (line 105); the
failure path `continue`s before the write.  The write mutates the
YAML-loaded dict in place, so the updated spec is what the submission
pass — and every later course — sees. -/
def enrollOne (resolveUser : String → Option Nat) (enrollOk : String → Bool)
    (s : SubmissionSpec) : SubmissionSpec × SEvent :=
  match resolveUser s.sis_login_id with
  | none => (s, .userError s.sis_login_id)
  | some uid =>
      if enrollOk s.sis_login_id then
        ({ s with submission_params := dictSet s.submission_params "user_id" (toString uid) },
         .enrolled s.sis_login_id)
      else (s, .userError s.sis_login_id)

/-- The whole enrollment loop over the submission list: the updated
submission list (in-place dict mutations) and the per-user outcomes. -/
def enrollPass (resolveUser : String → Option Nat) (enrollOk : String → Bool)
    (submission_list : List SubmissionSpec) : List SubmissionSpec × List SEvent :=
  (submission_list.map (fun s => (enrollOne resolveUser enrollOk s).1),
   submission_list.map (fun s => (enrollOne resolveUser enrollOk s).2))

/-- One `a.submit(submission=s["submission_params"])` call issued by
the submission loop (generate_submissions.py line 117): the assignment
name, the SIS login id of the spec, and the params bag passed. -/
structure SubmitCall where
  assignment : String
  sis : String
  params : List (String × String)
deriving Repr, DecidableEq

/-- The submit calls issued by the submission loop of
generate_submissions.py (lines 113-124): for every fetched assignment
whose `submission_types` contains `ASSIGNMENT_TYPE`, one call per entry
of the full submission list, in order. -/
def submitCalls (assignments : List RemoteAssignment)
    (submission_list : List SubmissionSpec) : List SubmitCall :=
  assignments.flatMap (fun a =>
    if ASSIGNMENT_TYPE ∈ a.submission_types then
      submission_list.map (fun s => ⟨a.name, s.sis_login_id, s.submission_params⟩)
    else [])

/-- The submission loop with per-call failure capture
(`submitOk a.name sis = false` models `a.submit` raising; the `except`
at lines 121-124 records the error for that pair and continues). -/
def submitPass (submitOk : String → String → Bool) (assignments : List RemoteAssignment)
    (submission_list : List SubmissionSpec) : List SEvent :=
  assignments.flatMap (fun a =>
    if ASSIGNMENT_TYPE ∈ a.submission_types then
      submission_list.map (fun s =>
        if submitOk a.name s.sis_login_id then SEvent.submitted a.name s.sis_login_id
        else SEvent.submitError a.name s.sis_login_id)
    else [])

/-- The (assignment, user) pair a submission outcome concerns, when it
is one. -/
def SEvent.submitKey : SEvent → Option (String × String)
  | .submitted an sis => some (an, sis)
  | .submitError an sis => some (an, sis)
  | _ => none

lemma submitCalls_cons (a : RemoteAssignment) (rest : List RemoteAssignment)
    (specs : List SubmissionSpec) :
    submitCalls (a :: rest) specs
      = (if ASSIGNMENT_TYPE ∈ a.submission_types then
          specs.map (fun s => ⟨a.name, s.sis_login_id, s.submission_params⟩)
        else []) ++ submitCalls rest specs :=
  rfl

lemma submitCalls_eq_filter (assignments : List RemoteAssignment)
    (specs : List SubmissionSpec) :
    submitCalls assignments specs
      = (assignments.filter (fun a => decide (ASSIGNMENT_TYPE ∈ a.submission_types))).flatMap
          (fun a => specs.map (fun s => ⟨a.name, s.sis_login_id, s.submission_params⟩)) := by
  induction assignments with
  | nil => rfl
  | cons a rest ih =>
      by_cases h : ASSIGNMENT_TYPE ∈ a.submission_types
      · simp [submitCalls_cons, List.filter_cons, h, ih]
      · simp [submitCalls_cons, List.filter_cons, h, ih]

lemma submitPass_map_submitKey (submitOk : String → String → Bool)
    (assignments : List RemoteAssignment) (specs : List SubmissionSpec) :
    (submitPass submitOk assignments specs).map SEvent.submitKey
      = (submitCalls assignments specs).map (fun c => some (c.assignment, c.sis)) := by
  unfold submitPass submitCalls
  rw [List.map_flatMap, List.map_flatMap]
  refine List.flatMap_congr ?_
  intro a _
  by_cases h : ASSIGNMENT_TYPE ∈ a.submission_types
  · simp only [h, if_true]
    rw [List.map_map, List.map_map]
    refine List.map_congr_left ?_
    intro s _
    by_cases hs : submitOk a.name s.sis_login_id <;>
      simp [SEvent.submitKey, hs, Function.comp]
  · simp [h]

/-- C8: submission pass behaviour.  The submit calls are exactly one
per (type-matching assignment) × (submission-list entry), in order;
every pair is attempted exactly once whatever the failure pattern (the
outcome keys coincide with the call list and are identical for any two
failure patterns); and the failure or success of each pair is recorded for
that pair. -/
theorem submission_pass_behavior (assignments : List RemoteAssignment)
    (specs : List SubmissionSpec) (submitOk submitOk2 : String → String → Bool) :
    (submitCalls assignments specs
      = (assignments.filter (fun a => decide (ASSIGNMENT_TYPE ∈ a.submission_types))).flatMap
          (fun a => specs.map (fun s => ⟨a.name, s.sis_login_id, s.submission_params⟩)))
    ∧ ((submitPass submitOk assignments specs).map SEvent.submitKey
        = (submitCalls assignments specs).map (fun c => some (c.assignment, c.sis)))
    ∧ ((submitPass submitOk assignments specs).map SEvent.submitKey
        = (submitPass submitOk2 assignments specs).map SEvent.submitKey)
    ∧ (∀ c ∈ submitCalls assignments specs,
        (submitOk c.assignment c.sis = false →
          SEvent.submitError c.assignment c.sis ∈ submitPass submitOk assignments specs)
        ∧ (submitOk c.assignment c.sis = true →
          SEvent.submitted c.assignment c.sis ∈ submitPass submitOk assignments specs)) := by
  refine ⟨submitCalls_eq_filter assignments specs,
    submitPass_map_submitKey submitOk assignments specs,
    by rw [submitPass_map_submitKey, submitPass_map_submitKey], ?_⟩
  intro c hc
  obtain ⟨a, hamem, hin⟩ := List.mem_flatMap.mp hc
  by_cases h : ASSIGNMENT_TYPE ∈ a.submission_types
  · rw [if_pos h] at hin
    obtain ⟨s, hs, hceq⟩ := List.mem_map.mp hin
    subst hceq
    constructor
    · intro hfail
      refine List.mem_flatMap.mpr ⟨a, hamem, ?_⟩
      rw [if_pos h]
      exact List.mem_map.mpr ⟨s, hs, by simp [hfail]⟩
    · intro hokk
      refine List.mem_flatMap.mpr ⟨a, hamem, ?_⟩
      rw [if_pos h]
      exact List.mem_map.mpr ⟨s, hs, by simp [hokk]⟩
  · rw [if_neg h] at hin
    simp at hin

/-- Modelled from the spec: the submission-script variant that resolves
the test-student section is part of the repository but not under
`src/` — `src/assignments/generate_submissions.py` enrolls without any
section, and spec §9 records two near-identical script variants with
exactly this drift.  Following spec §4.4: resolve the test-student
section by name from the current sections of the course; if absent, the
whole step is skipped for the course (recorded as a skip, no enrollment
and no submission calls, not fatal); otherwise run the enrollment pass
and then the submission pass. -/
def enroll_and_submit (sections : List String) (testSectionName : String)
    (resolveUser : String → Option Nat) (enrollOk : String → Bool)
    (submitOk : String → String → Bool) (assignments : List RemoteAssignment)
    (submission_list : List SubmissionSpec) : List SEvent :=
  if testSectionName ∈ sections then
    (enrollPass resolveUser enrollOk submission_list).2
      ++ submitPass submitOk assignments (enrollPass resolveUser enrollOk submission_list).1
  else [.sectionMissing testSectionName]

/-- Modelled from the spec: the per-course driver for §4.4; each
step of each course is independent, so a skip in one course leaves the
rest of the run unchanged. -/
def enrollAndSubmitAll (sectionsOf : Nat → List String)
    (resolveUser : Nat → String → Option Nat) (enrollOk : Nat → String → Bool)
    (submitOk : Nat → String → String → Bool)
    (assignmentsOf : Nat → List RemoteAssignment)
    (course_list : List CourseInfo) (submission_list : List SubmissionSpec) :
    List SEvent :=
  course_list.flatMap (fun c =>
    enroll_and_submit (sectionsOf c.canvas_id)
      (c.test_student_section_name.getD "Test Students")
      (resolveUser c.canvas_id) (enrollOk c.canvas_id) (submitOk c.canvas_id)
      (assignmentsOf c.canvas_id) submission_list)

/-- C5: missing test-student section.  When the sections of a course do not
contain the configured test-student section name, `enroll_and_submit`
records exactly one skip for the course, performs zero enrollment calls
and zero submission calls, and the remaining courses of the run proceed
exactly as if the course had been absent except for the skip line. -/
theorem missing_test_student_section
    (sectionsOf : Nat → List String) (resolveUser : Nat → String → Option Nat)
    (enrollOk : Nat → String → Bool) (submitOk : Nat → String → String → Bool)
    (assignmentsOf : Nat → List RemoteAssignment)
    (c : CourseInfo) (rest : List CourseInfo) (subs : List SubmissionSpec)
    (habs : c.test_student_section_name.getD "Test Students" ∉ sectionsOf c.canvas_id) :
    (enroll_and_submit (sectionsOf c.canvas_id)
        (c.test_student_section_name.getD "Test Students") (resolveUser c.canvas_id)
        (enrollOk c.canvas_id) (submitOk c.canvas_id) (assignmentsOf c.canvas_id) subs
      = [SEvent.sectionMissing (c.test_student_section_name.getD "Test Students")])
    ∧ (∀ sis, SEvent.enrolled sis
        ∉ enroll_and_submit (sectionsOf c.canvas_id)
            (c.test_student_section_name.getD "Test Students") (resolveUser c.canvas_id)
            (enrollOk c.canvas_id) (submitOk c.canvas_id) (assignmentsOf c.canvas_id) subs)
    ∧ (∀ an sis, SEvent.submitted an sis
        ∉ enroll_and_submit (sectionsOf c.canvas_id)
            (c.test_student_section_name.getD "Test Students") (resolveUser c.canvas_id)
            (enrollOk c.canvas_id) (submitOk c.canvas_id) (assignmentsOf c.canvas_id) subs
      ∧ SEvent.submitError an sis
        ∉ enroll_and_submit (sectionsOf c.canvas_id)
            (c.test_student_section_name.getD "Test Students") (resolveUser c.canvas_id)
            (enrollOk c.canvas_id) (submitOk c.canvas_id) (assignmentsOf c.canvas_id) subs)
    ∧ enrollAndSubmitAll sectionsOf resolveUser enrollOk submitOk assignmentsOf
        (c :: rest) subs
      = SEvent.sectionMissing (c.test_student_section_name.getD "Test Students")
          :: enrollAndSubmitAll sectionsOf resolveUser enrollOk submitOk assignmentsOf
              rest subs := by
  have h1 : enroll_and_submit (sectionsOf c.canvas_id)
      (c.test_student_section_name.getD "Test Students") (resolveUser c.canvas_id)
      (enrollOk c.canvas_id) (submitOk c.canvas_id) (assignmentsOf c.canvas_id) subs
      = [SEvent.sectionMissing (c.test_student_section_name.getD "Test Students")] := by
    unfold enroll_and_submit
    rw [if_neg habs]
  refine ⟨h1, ?_, ?_, ?_⟩
  · intro sis
    rw [h1]
    simp
  · intro an sis
    rw [h1]
    simp
  · unfold enrollAndSubmitAll
    rw [List.flatMap_cons, h1]
    rfl

/-- C5 witness: one course whose section list lacks the default
`"Test Students"` section, followed by one further course. -/
theorem missing_test_student_section_witness :
    ((CourseInfo.test_student_section_name ⟨1, "A", none, none, none⟩).getD "Test Students"
        ∉ ["Graders"])
    ∧ ((enroll_and_submit ["Graders"]
          ((CourseInfo.test_student_section_name ⟨1, "A", none, none, none⟩).getD
            "Test Students")
          (fun _ => some 9) (fun _ => true) (fun _ _ => true) [] []
        = [SEvent.sectionMissing
            ((CourseInfo.test_student_section_name ⟨1, "A", none, none, none⟩).getD
              "Test Students")])
      ∧ (∀ sis, SEvent.enrolled sis
          ∉ enroll_and_submit ["Graders"]
              ((CourseInfo.test_student_section_name ⟨1, "A", none, none, none⟩).getD
                "Test Students")
              (fun _ => some 9) (fun _ => true) (fun _ _ => true) [] [])
      ∧ (∀ an sis, SEvent.submitted an sis
          ∉ enroll_and_submit ["Graders"]
              ((CourseInfo.test_student_section_name ⟨1, "A", none, none, none⟩).getD
                "Test Students")
              (fun _ => some 9) (fun _ => true) (fun _ _ => true) [] []
        ∧ SEvent.submitError an sis
          ∉ enroll_and_submit ["Graders"]
              ((CourseInfo.test_student_section_name ⟨1, "A", none, none, none⟩).getD
                "Test Students")
              (fun _ => some 9) (fun _ => true) (fun _ _ => true) [] [])
      ∧ enrollAndSubmitAll (fun _ => ["Graders"]) (fun _ _ => some 9) (fun _ _ => true)
          (fun _ _ _ => true) (fun _ => [])
          [⟨1, "A", none, none, none⟩, ⟨2, "B", none, none, none⟩] []
        = SEvent.sectionMissing
            ((CourseInfo.test_student_section_name ⟨1, "A", none, none, none⟩).getD
              "Test Students")
            :: enrollAndSubmitAll (fun _ => ["Graders"]) (fun _ _ => some 9)
                (fun _ _ => true) (fun _ _ _ => true) (fun _ => [])
                [⟨2, "B", none, none, none⟩] []) :=
  ⟨by simp,
   missing_test_student_section (fun _ => ["Graders"]) (fun _ _ => some 9)
     (fun _ _ => true) (fun _ _ _ => true) (fun _ => [])
     ⟨1, "A", none, none, none⟩ [⟨2, "B", none, none, none⟩] [] (by simp)⟩

/-- The enrollment-loop body never changes the SIS login id. -/
lemma enrollOne_fst_sis (resolveUser : String → Option Nat) (enrollOk : String → Bool)
    (s : SubmissionSpec) :
    (enrollOne resolveUser enrollOk s).1.sis_login_id = s.sis_login_id := by
  unfold enrollOne
  cases resolveUser s.sis_login_id with
  | none => rfl
  | some uid =>
      by_cases h : enrollOk s.sis_login_id <;> simp [h]

/-- A spec whose user resolution or enrollment fails is left entirely
unchanged by the enrollment loop (the `continue` at line 108 skips the
`user_id` write). -/
lemma enrollOne_fst_of_fail (resolveUser : String → Option Nat) (enrollOk : String → Bool)
    (s : SubmissionSpec)
    (hfail : resolveUser s.sis_login_id = none ∨ enrollOk s.sis_login_id = false) :
    (enrollOne resolveUser enrollOk s).1 = s := by
  unfold enrollOne
  rcases hfail with h | h
  · rw [h]
  · cases hr : resolveUser s.sis_login_id with
    | none => rfl
    | some uid => simp [h]

/-- C10: submissions are attempted for every spec regardless of its
enrollment outcome.  The submission pass iterates the submission list
the enrollment loop leaves behind, which has exactly the same entries
in the same order (same SIS ids); a spec whose resolution or enrollment
failed in this course is carried through unchanged — so for every
type-matching assignment a submit call is made for that spec with its
pre-existing `submission_params`, lacking a `"user_id"` key if one was
never injected, or carrying a stale one injected during the run of an
earlier course. -/
theorem submissions_attempted_regardless_of_enrollment
    (resolveUser : String → Option Nat) (enrollOk : String → Bool)
    (assignments : List RemoteAssignment) (specs : List SubmissionSpec)
    (j : Nat) (s : SubmissionSpec) (hjs : specs[j]? = some s)
    (hfail : resolveUser s.sis_login_id = none ∨ enrollOk s.sis_login_id = false) :
    ((enrollPass resolveUser enrollOk specs).1.map SubmissionSpec.sis_login_id
        = specs.map SubmissionSpec.sis_login_id)
    ∧ (enrollPass resolveUser enrollOk specs).1[j]? = some s
    ∧ (∀ a ∈ assignments, ASSIGNMENT_TYPE ∈ a.submission_types →
        (⟨a.name, s.sis_login_id, s.submission_params⟩ : SubmitCall)
          ∈ submitCalls assignments (enrollPass resolveUser enrollOk specs).1) := by
  have hfix : (enrollOne resolveUser enrollOk s).1 = s :=
    enrollOne_fst_of_fail resolveUser enrollOk s hfail
  have hj2 : (enrollPass resolveUser enrollOk specs).1[j]? = some s := by
    unfold enrollPass
    rw [List.getElem?_map, hjs]
    simp [hfix]
  refine ⟨?_, hj2, ?_⟩
  · unfold enrollPass
    rw [List.map_map]
    refine List.map_congr_left ?_
    intro x _
    exact enrollOne_fst_sis resolveUser enrollOk x
  · intro a ha htype
    have hsmem : s ∈ (enrollPass resolveUser enrollOk specs).1 := by
      have := List.getElem?_eq_some_iff.mp hj2
      obtain ⟨hlt, hget⟩ := this
      rw [← hget]
      exact List.getElem_mem hlt
    refine List.mem_flatMap.mpr ⟨a, ha, ?_⟩
    rw [if_pos htype]
    exact List.mem_map.mpr ⟨s, hsmem, rfl⟩

/-- C10 witness: one spec whose user resolution fails against one
type-matching assignment. -/
theorem submissions_attempted_regardless_of_enrollment_witness :
    (([(⟨"u1", []⟩ : SubmissionSpec)][0]? = some (⟨"u1", []⟩ : SubmissionSpec))
      ∧ ((fun _ => (none : Option Nat)) (SubmissionSpec.sis_login_id ⟨"u1", []⟩) = none
          ∨ (fun _ => true) (SubmissionSpec.sis_login_id ⟨"u1", []⟩) = false))
    ∧ (((enrollPass (fun _ => none) (fun _ => true) [⟨"u1", []⟩]).1.map
          SubmissionSpec.sis_login_id
        = [(⟨"u1", []⟩ : SubmissionSpec)].map SubmissionSpec.sis_login_id)
      ∧ (enrollPass (fun _ => none) (fun _ => true) [⟨"u1", []⟩]).1[0]?
        = some (⟨"u1", []⟩ : SubmissionSpec)
      ∧ (∀ a ∈ [(⟨"HW1", ["online_text_entry"]⟩ : RemoteAssignment)],
          ASSIGNMENT_TYPE ∈ a.submission_types →
          (⟨a.name, SubmissionSpec.sis_login_id ⟨"u1", []⟩,
              SubmissionSpec.submission_params ⟨"u1", []⟩⟩ : SubmitCall)
            ∈ submitCalls [⟨"HW1", ["online_text_entry"]⟩]
                (enrollPass (fun _ => none) (fun _ => true) [⟨"u1", []⟩]).1)) :=
  ⟨⟨rfl, Or.inl rfl⟩,
   submissions_attempted_regardless_of_enrollment (fun _ => none) (fun _ => true)
     [⟨"HW1", ["online_text_entry"]⟩] [⟨"u1", []⟩] 0 ⟨"u1", []⟩ rfl (Or.inl rfl)⟩

/-- The course loop of generate_assignments.py (lines 73-119) together
with the process exit status.  The snapshot listing
`course.get_assignments()` at line 84 sits outside every `try`: when it
raises a `CanvasException` (`listOk cid = false`) the interpreter dies
with exit status 1, keeping whatever output the earlier courses
produced and processing nothing further.  The listing is modelled as a
single all-or-nothing snapshot call.  A `get_course` failure (80-82) is
caught and skips the course; every failure inside the replica loop
(100-119) is caught per assignment. -/
def generateAssignmentsLoop (getCourseOk listOk : Nat → Bool)
    (remoteOf : Nat → List String) (createOk assocOk : Nat → String → Bool)
    (assignment_list : List AssignmentTemplate) :
    List CourseInfo → Nat × List RunEvent
  | [] => (0, [])
  | c :: rest =>
    if getCourseOk c.canvas_id then
      if listOk c.canvas_id then
        ((generateAssignmentsLoop getCourseOk listOk remoteOf createOk assocOk
            assignment_list rest).1,
         (ensure_assignments (createOk c.canvas_id) (assocOk c.canvas_id)
            (remoteOf c.canvas_id) assignment_list c.numCreate).1.map
            (RunEvent.assign c.canvas_id c.name)
          ++ (generateAssignmentsLoop getCourseOk listOk remoteOf createOk assocOk
              assignment_list rest).2)
      else (1, [])
    else
      ((generateAssignmentsLoop getCourseOk listOk remoteOf createOk assocOk
          assignment_list rest).1,
       RunEvent.courseError c.canvas_id c.name
         :: (generateAssignmentsLoop getCourseOk listOk remoteOf createOk assocOk
             assignment_list rest).2)

/-- Whole-process control flow of generate_assignments.py: the env-var
guard (lines 45-49) exits 1; then `courses.yml` (51-59) and
`assignment.yml` (61-69) are loaded, each exiting 1 on
FileNotFoundError / YAMLError (a load result of `none`); otherwise the
course loop runs — exiting 1 when the uncaught snapshot listing at
line 84 raises, and ending with exit code 0 otherwise since every
other `CanvasException` is caught inside the loop. -/
def generateAssignmentsMain (envOk : Bool) (coursesLoad : Option (List CourseInfo))
    (assignmentLoad : Option (List AssignmentTemplate)) (getCourseOk listOk : Nat → Bool)
    (remoteOf : Nat → List String) (createOk assocOk : Nat → String → Bool) :
    Nat × List RunEvent :=
  if !envOk then (1, [])
  else match coursesLoad with
    | none => (1, [])
    | some cs => match assignmentLoad with
      | none => (1, [])
      | some ts =>
        generateAssignmentsLoop getCourseOk listOk remoteOf createOk assocOk ts cs

/-- One course of generate_submissions.py (lines 87-126): enrollment
loop, then the submission block guarded by the `get_assignments` fetch
(`fetchOk = false` models the outer `except` at 125-126).  The updated
submission list is threaded out because the `user_id` writes persist
across courses. -/
def courseSubmissionsRun (resolveUser : String → Option Nat) (enrollOk : String → Bool)
    (fetchOk : Bool) (assignments : List RemoteAssignment)
    (submitOk : String → String → Bool) (specs : List SubmissionSpec) :
    List SubmissionSpec × List SEvent :=
  if fetchOk then
    ((enrollPass resolveUser enrollOk specs).1,
     (enrollPass resolveUser enrollOk specs).2
       ++ submitPass submitOk assignments (enrollPass resolveUser enrollOk specs).1)
  else
    ((enrollPass resolveUser enrollOk specs).1,
     (enrollPass resolveUser enrollOk specs).2 ++ [SEvent.fetchError])

/-- The course loop of generate_submissions.py (lines 87-126),
threading the (in-place mutated) submission list from course to
course.  A `get_course` failure records the error and skips the
course. -/
def runGenerateSubmissions (getCourseOk : Nat → Bool)
    (resolveUser : Nat → String → Option Nat) (enrollOk : Nat → String → Bool)
    (fetchOk : Nat → Bool) (assignmentsOf : Nat → List RemoteAssignment)
    (submitOk : Nat → String → String → Bool) :
    List CourseInfo → List SubmissionSpec → List SubmissionSpec × List SEvent
  | [], specs => (specs, [])
  | c :: rest, specs =>
    if getCourseOk c.canvas_id then
      let r1 := courseSubmissionsRun (resolveUser c.canvas_id) (enrollOk c.canvas_id)
        (fetchOk c.canvas_id) (assignmentsOf c.canvas_id) (submitOk c.canvas_id) specs
      let r2 := runGenerateSubmissions getCourseOk resolveUser enrollOk fetchOk
        assignmentsOf submitOk rest r1.1
      (r2.1, r1.2 ++ r2.2)
    else
      let r2 := runGenerateSubmissions getCourseOk resolveUser enrollOk fetchOk
        assignmentsOf submitOk rest specs
      (r2.1, SEvent.courseError c.canvas_id c.name :: r2.2)

/-- Whole-process control flow of generate_submissions.py: env guard
(55-59), `courses.yml` load (62-70), `submissions.yml` load (73-81),
each exiting 1; otherwise the course loop runs and the process exits
0. -/
def generateSubmissionsMain (envOk : Bool) (coursesLoad : Option (List CourseInfo))
    (submissionsLoad : Option (List SubmissionSpec)) (getCourseOk : Nat → Bool)
    (resolveUser : Nat → String → Option Nat) (enrollOk : Nat → String → Bool)
    (fetchOk : Nat → Bool) (assignmentsOf : Nat → List RemoteAssignment)
    (submitOk : Nat → String → String → Bool) : Nat × List SEvent :=
  if !envOk then (1, [])
  else match coursesLoad with
    | none => (1, [])
    | some cs => match submissionsLoad with
      | none => (1, [])
      | some subs =>
        (0, (runGenerateSubmissions getCourseOk resolveUser enrollOk fetchOk
          assignmentsOf submitOk cs subs).2)

/-- Console/API outcomes of reset.py.  `deleted` / `sectionDeleted` are
the remote mutations; `deleteError` / `sectionError` are caught
`CanvasException`s; `courseError` is the "Skipping ... due to error"
line. -/
inductive ResetEvent
  | courseError (cid : Nat) (courseName : String)
  | deleted (cid : Nat) (nm : String)
  | deleteError (cid : Nat) (nm : String)
  | sectionDeleted (cid : Nat) (sectionName : String)
  | sectionError (cid : Nat) (sectionName : String)
deriving Repr, DecidableEq

/-- The deletion loop of reset.py (85-91) for one course: every remote
assignment whose name is in the target list gets a `delete()` attempt,
with the `CanvasException` caught per assignment. -/
def resetDeletionEvents (cid : Nat) (deleteOk : String → Bool)
    (remote targets : List String) : List ResetEvent :=
  remote.filterMap (fun nm =>
    if nm ∈ targets then
      some (if deleteOk nm then ResetEvent.deleted cid nm
            else ResetEvent.deleteError cid nm)
    else none)

/-- The section loop of reset.py (94-107) for one course.
`sectionOk sn = false` models a `CanvasException` anywhere in the
enrollment-deactivation / section-delete block for that section (the
`try` at 99-107 covers the whole block per section). -/
def resetSectionEvents (cid : Nat) (sections : List String)
    (testName graderName : String) (sectionOk : String → Bool) : List ResetEvent :=
  sections.filterMap (fun sn =>
    if sn = testName ∨ sn = graderName then
      some (if sectionOk sn then ResetEvent.sectionDeleted cid sn
            else ResetEvent.sectionError cid sn)
    else none)

/-- The course loop of reset.py (58-107).  Per course: the `get_course`
fetch is caught (a failure records a skip line and `continue`s); the
per-iteration `assignment.yml` load (70-75) exits the process with
code 1 when it fails; then the two listings are UNCAUGHT —
`course.get_assignments()` at line 85 (`listAssignmentsOk`) and
`course.get_sections()` at line 94 (`listSectionsOk`) sit outside every
`try`, so a `CanvasException` there kills the interpreter with exit
status 1, keeping the output produced so far (a crash at the section
listing comes after the deletions of that course).  Each listing is
modelled as a single all-or-nothing snapshot call. -/
def resetLoop (assignmentLoad : Option (List AssignmentTemplate))
    (getCourseOk listAssignmentsOk listSectionsOk : Nat → Bool)
    (remoteOf : Nat → List String) (deleteOk : Nat → String → Bool)
    (sectionsOf : Nat → List String) (sectionOk : Nat → String → Bool) :
    List CourseInfo → Nat × List ResetEvent
  | [] => (0, [])
  | c :: rest =>
    if getCourseOk c.canvas_id then
      match assignmentLoad with
      | none => (1, [])
      | some ts =>
        if listAssignmentsOk c.canvas_id then
          if listSectionsOk c.canvas_id then
            ((resetLoop assignmentLoad getCourseOk listAssignmentsOk listSectionsOk
                remoteOf deleteOk sectionsOf sectionOk rest).1,
             resetDeletionEvents c.canvas_id (deleteOk c.canvas_id) (remoteOf c.canvas_id)
                (assignments_to_delete ts c)
              ++ resetSectionEvents c.canvas_id (sectionsOf c.canvas_id)
                  (c.test_student_section_name.getD "Test Students")
                  (c.grader_section_name.getD "Graders") (sectionOk c.canvas_id)
              ++ (resetLoop assignmentLoad getCourseOk listAssignmentsOk listSectionsOk
                  remoteOf deleteOk sectionsOf sectionOk rest).2)
          else
            (1, resetDeletionEvents c.canvas_id (deleteOk c.canvas_id)
                  (remoteOf c.canvas_id) (assignments_to_delete ts c))
        else (1, [])
    else
      ((resetLoop assignmentLoad getCourseOk listAssignmentsOk listSectionsOk
          remoteOf deleteOk sectionsOf sectionOk rest).1,
       ResetEvent.courseError c.canvas_id c.name
         :: (resetLoop assignmentLoad getCourseOk listAssignmentsOk listSectionsOk
             remoteOf deleteOk sectionsOf sectionOk rest).2)

/-- Whole-process control flow of reset.py: env guard (40-44) and
`courses.yml` load (47-52) exit 1 up front; `assignment.yml` is only
ever loaded inside the course loop, and the two uncaught listings can
kill the run mid-way. -/
def resetMain (envOk : Bool) (coursesLoad : Option (List CourseInfo))
    (assignmentLoad : Option (List AssignmentTemplate))
    (getCourseOk listAssignmentsOk listSectionsOk : Nat → Bool)
    (remoteOf : Nat → List String) (deleteOk : Nat → String → Bool)
    (sectionsOf : Nat → List String) (sectionOk : Nat → String → Bool) :
    Nat × List ResetEvent :=
  if !envOk then (1, [])
  else match coursesLoad with
    | none => (1, [])
    | some cs => resetLoop assignmentLoad getCourseOk listAssignmentsOk listSectionsOk
        remoteOf deleteOk sectionsOf sectionOk cs

lemma resetLoop_cons_fetchFail (assignmentLoad : Option (List AssignmentTemplate))
    (getCourseOk listAssignmentsOk listSectionsOk : Nat → Bool)
    (remoteOf : Nat → List String) (deleteOk : Nat → String → Bool)
    (sectionsOf : Nat → List String) (sectionOk : Nat → String → Bool)
    (c : CourseInfo) (rest : List CourseInfo) (hg : getCourseOk c.canvas_id = false) :
    resetLoop assignmentLoad getCourseOk listAssignmentsOk listSectionsOk remoteOf
        deleteOk sectionsOf sectionOk (c :: rest)
      = ((resetLoop assignmentLoad getCourseOk listAssignmentsOk listSectionsOk remoteOf
            deleteOk sectionsOf sectionOk rest).1,
         ResetEvent.courseError c.canvas_id c.name
           :: (resetLoop assignmentLoad getCourseOk listAssignmentsOk listSectionsOk
               remoteOf deleteOk sectionsOf sectionOk rest).2) := by
  simp [resetLoop, hg]

lemma resetLoop_cons_loadFail (getCourseOk listAssignmentsOk listSectionsOk : Nat → Bool)
    (remoteOf : Nat → List String) (deleteOk : Nat → String → Bool)
    (sectionsOf : Nat → List String) (sectionOk : Nat → String → Bool)
    (c : CourseInfo) (rest : List CourseInfo) (hg : getCourseOk c.canvas_id = true) :
    resetLoop none getCourseOk listAssignmentsOk listSectionsOk remoteOf deleteOk
        sectionsOf sectionOk (c :: rest)
      = (1, []) := by
  simp [resetLoop, hg]

lemma resetLoop_cons_crashAssignments (ts : List AssignmentTemplate)
    (getCourseOk listAssignmentsOk listSectionsOk : Nat → Bool)
    (remoteOf : Nat → List String) (deleteOk : Nat → String → Bool)
    (sectionsOf : Nat → List String) (sectionOk : Nat → String → Bool)
    (c : CourseInfo) (rest : List CourseInfo) (hg : getCourseOk c.canvas_id = true)
    (hla : listAssignmentsOk c.canvas_id = false) :
    resetLoop (some ts) getCourseOk listAssignmentsOk listSectionsOk remoteOf deleteOk
        sectionsOf sectionOk (c :: rest)
      = (1, []) := by
  simp [resetLoop, hg, hla]

lemma resetLoop_cons_crashSections (ts : List AssignmentTemplate)
    (getCourseOk listAssignmentsOk listSectionsOk : Nat → Bool)
    (remoteOf : Nat → List String) (deleteOk : Nat → String → Bool)
    (sectionsOf : Nat → List String) (sectionOk : Nat → String → Bool)
    (c : CourseInfo) (rest : List CourseInfo) (hg : getCourseOk c.canvas_id = true)
    (hla : listAssignmentsOk c.canvas_id = true)
    (hls : listSectionsOk c.canvas_id = false) :
    resetLoop (some ts) getCourseOk listAssignmentsOk listSectionsOk remoteOf deleteOk
        sectionsOf sectionOk (c :: rest)
      = (1, resetDeletionEvents c.canvas_id (deleteOk c.canvas_id) (remoteOf c.canvas_id)
            (assignments_to_delete ts c)) := by
  simp [resetLoop, hg, hla, hls]

lemma resetLoop_cons_loaded (ts : List AssignmentTemplate)
    (getCourseOk listAssignmentsOk listSectionsOk : Nat → Bool)
    (remoteOf : Nat → List String) (deleteOk : Nat → String → Bool)
    (sectionsOf : Nat → List String) (sectionOk : Nat → String → Bool)
    (c : CourseInfo) (rest : List CourseInfo) (hg : getCourseOk c.canvas_id = true)
    (hla : listAssignmentsOk c.canvas_id = true)
    (hls : listSectionsOk c.canvas_id = true) :
    resetLoop (some ts) getCourseOk listAssignmentsOk listSectionsOk remoteOf deleteOk
        sectionsOf sectionOk (c :: rest)
      = ((resetLoop (some ts) getCourseOk listAssignmentsOk listSectionsOk remoteOf
            deleteOk sectionsOf sectionOk rest).1,
         resetDeletionEvents c.canvas_id (deleteOk c.canvas_id) (remoteOf c.canvas_id)
            (assignments_to_delete ts c)
          ++ resetSectionEvents c.canvas_id (sectionsOf c.canvas_id)
              (c.test_student_section_name.getD "Test Students")
              (c.grader_section_name.getD "Graders") (sectionOk c.canvas_id)
          ++ (resetLoop (some ts) getCourseOk listAssignmentsOk listSectionsOk remoteOf
              deleteOk sectionsOf sectionOk rest).2) := by
  simp [resetLoop, hg, hla, hls]

lemma resetLoop_characterize (assignmentLoad : Option (List AssignmentTemplate))
    (getCourseOk listAssignmentsOk listSectionsOk : Nat → Bool)
    (remoteOf : Nat → List String) (deleteOk : Nat → String → Bool)
    (sectionsOf : Nat → List String) (sectionOk : Nat → String → Bool)
    (cs : List CourseInfo) :
    ((resetLoop assignmentLoad getCourseOk listAssignmentsOk listSectionsOk remoteOf
        deleteOk sectionsOf sectionOk cs).1 = 1
      ↔ ∃ c ∈ cs, getCourseOk c.canvas_id = true
          ∧ (assignmentLoad = none ∨ listAssignmentsOk c.canvas_id = false
              ∨ listSectionsOk c.canvas_id = false))
    ∧ ((resetLoop assignmentLoad getCourseOk listAssignmentsOk listSectionsOk remoteOf
        deleteOk sectionsOf sectionOk cs).1 = 0
      ∨ (resetLoop assignmentLoad getCourseOk listAssignmentsOk listSectionsOk remoteOf
        deleteOk sectionsOf sectionOk cs).1 = 1)
    ∧ (assignmentLoad = none →
        ∀ e ∈ (resetLoop assignmentLoad getCourseOk listAssignmentsOk listSectionsOk
          remoteOf deleteOk sectionsOf sectionOk cs).2,
          ∃ cid cn, e = ResetEvent.courseError cid cn) := by
  induction cs with
  | nil => simp [resetLoop]
  | cons c rest ih =>
    obtain ⟨ih1, ih2, ih3⟩ := ih
    cases hg : getCourseOk c.canvas_id with
    | true =>
      cases assignmentLoad with
      | none =>
        rw [resetLoop_cons_loadFail getCourseOk listAssignmentsOk listSectionsOk
          remoteOf deleteOk sectionsOf sectionOk c rest hg]
        refine ⟨?_, Or.inr rfl, ?_⟩
        · constructor
          · intro _
            exact ⟨c, List.mem_cons_self c rest, hg, Or.inl rfl⟩
          · intro _
            rfl
        · intro _ e he
          simp at he
      | some ts =>
        cases hla : listAssignmentsOk c.canvas_id with
        | false =>
          rw [resetLoop_cons_crashAssignments ts getCourseOk listAssignmentsOk
            listSectionsOk remoteOf deleteOk sectionsOf sectionOk c rest hg hla]
          refine ⟨?_, Or.inr rfl, ?_⟩
          · constructor
            · intro _
              exact ⟨c, List.mem_cons_self c rest, hg, Or.inr (Or.inl hla)⟩
            · intro _
              rfl
          · intro hn
            exact Option.noConfusion hn
        | true =>
          cases hls : listSectionsOk c.canvas_id with
          | false =>
            rw [resetLoop_cons_crashSections ts getCourseOk listAssignmentsOk
              listSectionsOk remoteOf deleteOk sectionsOf sectionOk c rest hg hla hls]
            refine ⟨?_, Or.inr rfl, ?_⟩
            · constructor
              · intro _
                exact ⟨c, List.mem_cons_self c rest, hg, Or.inr (Or.inr hls)⟩
              · intro _
                rfl
            · intro hn
              exact Option.noConfusion hn
          | true =>
            rw [resetLoop_cons_loaded ts getCourseOk listAssignmentsOk listSectionsOk
              remoteOf deleteOk sectionsOf sectionOk c rest hg hla hls]
            refine ⟨?_, ih2, ?_⟩
            · rw [ih1]
              constructor
              · rintro ⟨c', hc', hgc, hdis⟩
                exact ⟨c', List.mem_cons_of_mem _ hc', hgc, hdis⟩
              · rintro ⟨c', hc', hgc, hdis⟩
                rcases List.mem_cons.mp hc' with heq | hc'
                · subst heq
                  rcases hdis with hn | hl | hl
                  · exact Option.noConfusion hn
                  · rw [hla] at hl
                    exact Bool.noConfusion hl
                  · rw [hls] at hl
                    exact Bool.noConfusion hl
                · exact ⟨c', hc', hgc, hdis⟩
            · intro hn
              exact Option.noConfusion hn
    | false =>
      rw [resetLoop_cons_fetchFail assignmentLoad getCourseOk listAssignmentsOk
        listSectionsOk remoteOf deleteOk sectionsOf sectionOk c rest hg]
      refine ⟨?_, ih2, ?_⟩
      · rw [ih1]
        constructor
        · rintro ⟨c', hc', hgc, hdis⟩
          exact ⟨c', List.mem_cons_of_mem _ hc', hgc, hdis⟩
        · rintro ⟨c', hc', hgc, hdis⟩
          rcases List.mem_cons.mp hc' with heq | hc'
          · subst heq
            rw [hg] at hgc
            exact Bool.noConfusion hgc
          · exact ⟨c', hc', hgc, hdis⟩
      · intro hn e he
        rcases List.mem_cons.mp he with heq | he
        · exact ⟨c.canvas_id, c.name, heq⟩
        · exact ih3 hn e he

lemma generateAssignmentsLoop_characterize (getCourseOk listOk : Nat → Bool)
    (remoteOf : Nat → List String) (createOk assocOk : Nat → String → Bool)
    (ts : List AssignmentTemplate) (cs : List CourseInfo) :
    ((generateAssignmentsLoop getCourseOk listOk remoteOf createOk assocOk ts cs).1 = 1
      ↔ ∃ c ∈ cs, getCourseOk c.canvas_id = true ∧ listOk c.canvas_id = false)
    ∧ ((generateAssignmentsLoop getCourseOk listOk remoteOf createOk assocOk ts cs).1 = 0
      ∨ (generateAssignmentsLoop getCourseOk listOk remoteOf createOk assocOk ts cs).1
        = 1) := by
  induction cs with
  | nil => simp [generateAssignmentsLoop]
  | cons c rest ih =>
    obtain ⟨ih1, ih2⟩ := ih
    cases hg : getCourseOk c.canvas_id with
    | true =>
      cases hl : listOk c.canvas_id with
      | false =>
        have hshape : generateAssignmentsLoop getCourseOk listOk remoteOf createOk
            assocOk ts (c :: rest) = (1, []) := by
          simp [generateAssignmentsLoop, hg, hl]
        rw [hshape]
        refine ⟨?_, Or.inr rfl⟩
        constructor
        · intro _
          exact ⟨c, List.mem_cons_self c rest, hg, hl⟩
        · intro _
          rfl
      | true =>
        have hshape : generateAssignmentsLoop getCourseOk listOk remoteOf createOk
            assocOk ts (c :: rest)
            = ((generateAssignmentsLoop getCourseOk listOk remoteOf createOk assocOk
                  ts rest).1,
               (ensure_assignments (createOk c.canvas_id) (assocOk c.canvas_id)
                  (remoteOf c.canvas_id) ts c.numCreate).1.map
                  (RunEvent.assign c.canvas_id c.name)
                ++ (generateAssignmentsLoop getCourseOk listOk remoteOf createOk assocOk
                    ts rest).2) := by
          simp [generateAssignmentsLoop, hg, hl]
        rw [hshape]
        refine ⟨?_, ih2⟩
        rw [ih1]
        constructor
        · rintro ⟨c', hc', hgc, hlc⟩
          exact ⟨c', List.mem_cons_of_mem _ hc', hgc, hlc⟩
        · rintro ⟨c', hc', hgc, hlc⟩
          rcases List.mem_cons.mp hc' with heq | hc'
          · subst heq
            rw [hl] at hlc
            exact Bool.noConfusion hlc
          · exact ⟨c', hc', hgc, hlc⟩
    | false =>
      have hshape : generateAssignmentsLoop getCourseOk listOk remoteOf createOk assocOk
          ts (c :: rest)
          = ((generateAssignmentsLoop getCourseOk listOk remoteOf createOk assocOk ts
                rest).1,
             RunEvent.courseError c.canvas_id c.name
               :: (generateAssignmentsLoop getCourseOk listOk remoteOf createOk assocOk
                   ts rest).2) := by
        simp [generateAssignmentsLoop, hg]
      rw [hshape]
      refine ⟨?_, ih2⟩
      rw [ih1]
      constructor
      · rintro ⟨c', hc', hgc, hlc⟩
        exact ⟨c', List.mem_cons_of_mem _ hc', hgc, hlc⟩
      · rintro ⟨c', hc', hgc, hlc⟩
        rcases List.mem_cons.mp hc' with heq | hc'
        · subst heq
          rw [hg] at hgc
          exact Bool.noConfusion hgc
        · exact ⟨c', hc', hgc, hlc⟩

/-- When the snapshot listing succeeds for every course, the
crash-aware process loop exits 0 and produces exactly the event stream
of `runGenerateAssignments`. -/
lemma generateAssignmentsLoop_of_listOk (getCourseOk listOk : Nat → Bool)
    (remoteOf : Nat → List String) (createOk assocOk : Nat → String → Bool)
    (ts : List AssignmentTemplate) (cs : List CourseInfo)
    (hall : ∀ c ∈ cs, listOk c.canvas_id = true) :
    generateAssignmentsLoop getCourseOk listOk remoteOf createOk assocOk ts cs
      = (0, runGenerateAssignments getCourseOk remoteOf createOk assocOk cs ts) := by
  induction cs with
  | nil => simp [generateAssignmentsLoop, runGenerateAssignments]
  | cons c rest ih =>
    have hrest := ih (fun c' hc' => hall c' (List.mem_cons_of_mem _ hc'))
    have hl : listOk c.canvas_id = true := hall c (List.mem_cons_self c rest)
    cases hg : getCourseOk c.canvas_id with
    | true =>
      simp only [generateAssignmentsLoop, hg, hl, if_true, hrest,
        runGenerateAssignments, List.flatMap_cons]
    | false =>
      simp only [generateAssignmentsLoop, hg, Bool.false_eq_true, if_false, hrest,
        runGenerateAssignments, List.flatMap_cons]
      rfl

lemma generateAssignmentsMain_exit (envOk : Bool) (coursesLoad : Option (List CourseInfo))
    (assignmentLoad : Option (List AssignmentTemplate)) (getCourseOk listOk : Nat → Bool)
    (remoteOf : Nat → List String) (createOk assocOk : Nat → String → Bool) :
    ((generateAssignmentsMain envOk coursesLoad assignmentLoad getCourseOk listOk
        remoteOf createOk assocOk).1 = 1
      ↔ (envOk = false ∨ coursesLoad = none ∨ assignmentLoad = none
          ∨ ∃ c ∈ coursesLoad.getD [], getCourseOk c.canvas_id = true
              ∧ listOk c.canvas_id = false))
    ∧ ((generateAssignmentsMain envOk coursesLoad assignmentLoad getCourseOk listOk
        remoteOf createOk assocOk).1 = 0
      ∨ (generateAssignmentsMain envOk coursesLoad assignmentLoad getCourseOk listOk
        remoteOf createOk assocOk).1 = 1)
    ∧ ((envOk = false ∨ coursesLoad = none ∨ assignmentLoad = none) →
      (generateAssignmentsMain envOk coursesLoad assignmentLoad getCourseOk listOk
        remoteOf createOk assocOk).2 = []) := by
  cases envOk with
  | false => simp [generateAssignmentsMain]
  | true =>
    cases coursesLoad with
    | none => simp [generateAssignmentsMain]
    | some cs =>
      cases assignmentLoad with
      | none => simp [generateAssignmentsMain]
      | some ts =>
        obtain ⟨h1, h2⟩ := generateAssignmentsLoop_characterize getCourseOk listOk
          remoteOf createOk assocOk ts cs
        refine ⟨?_, ?_, ?_⟩
        · simpa [generateAssignmentsMain] using h1
        · simpa [generateAssignmentsMain] using h2
        · intro h
          simp at h

lemma generateSubmissionsMain_exit (envOk : Bool) (coursesLoad : Option (List CourseInfo))
    (submissionsLoad : Option (List SubmissionSpec)) (getCourseOk : Nat → Bool)
    (resolveUser : Nat → String → Option Nat) (enrollOk : Nat → String → Bool)
    (fetchOk : Nat → Bool) (assignmentsOf : Nat → List RemoteAssignment)
    (submitOk : Nat → String → String → Bool) :
    ((generateSubmissionsMain envOk coursesLoad submissionsLoad getCourseOk resolveUser
        enrollOk fetchOk assignmentsOf submitOk).1 = 1
      ↔ (envOk = false ∨ coursesLoad = none ∨ submissionsLoad = none))
    ∧ ((generateSubmissionsMain envOk coursesLoad submissionsLoad getCourseOk resolveUser
        enrollOk fetchOk assignmentsOf submitOk).1 = 0
      ∨ (generateSubmissionsMain envOk coursesLoad submissionsLoad getCourseOk resolveUser
        enrollOk fetchOk assignmentsOf submitOk).1 = 1)
    ∧ ((generateSubmissionsMain envOk coursesLoad submissionsLoad getCourseOk resolveUser
        enrollOk fetchOk assignmentsOf submitOk).1 = 1 →
      (generateSubmissionsMain envOk coursesLoad submissionsLoad getCourseOk resolveUser
        enrollOk fetchOk assignmentsOf submitOk).2 = []) := by
  cases envOk with
  | false => simp [generateSubmissionsMain]
  | true =>
    cases coursesLoad with
    | none => simp [generateSubmissionsMain]
    | some cs =>
      cases submissionsLoad with
      | none => simp [generateSubmissionsMain]
      | some subs => simp [generateSubmissionsMain]

lemma resetMain_exit (envOk : Bool) (coursesLoad : Option (List CourseInfo))
    (assignmentLoad : Option (List AssignmentTemplate))
    (getCourseOk listAssignmentsOk listSectionsOk : Nat → Bool)
    (remoteOf : Nat → List String) (deleteOk : Nat → String → Bool)
    (sectionsOf : Nat → List String) (sectionOk : Nat → String → Bool) :
    ((resetMain envOk coursesLoad assignmentLoad getCourseOk listAssignmentsOk
        listSectionsOk remoteOf deleteOk sectionsOf sectionOk).1 = 1
      ↔ (envOk = false ∨ coursesLoad = none
          ∨ ∃ c ∈ coursesLoad.getD [], getCourseOk c.canvas_id = true
              ∧ (assignmentLoad = none ∨ listAssignmentsOk c.canvas_id = false
                  ∨ listSectionsOk c.canvas_id = false)))
    ∧ ((resetMain envOk coursesLoad assignmentLoad getCourseOk listAssignmentsOk
        listSectionsOk remoteOf deleteOk sectionsOf sectionOk).1 = 0
      ∨ (resetMain envOk coursesLoad assignmentLoad getCourseOk listAssignmentsOk
        listSectionsOk remoteOf deleteOk sectionsOf sectionOk).1 = 1)
    ∧ ((envOk = false ∨ coursesLoad = none) →
      (resetMain envOk coursesLoad assignmentLoad getCourseOk listAssignmentsOk
        listSectionsOk remoteOf deleteOk sectionsOf sectionOk).2 = [])
    ∧ (assignmentLoad = none →
      ∀ e ∈ (resetMain envOk coursesLoad assignmentLoad getCourseOk listAssignmentsOk
        listSectionsOk remoteOf deleteOk sectionsOf sectionOk).2,
        ∃ cid cn, e = ResetEvent.courseError cid cn) := by
  cases envOk with
  | false => simp [resetMain]
  | true =>
    cases coursesLoad with
    | none => simp [resetMain]
    | some cs =>
      obtain ⟨h1, h2, h3⟩ := resetLoop_characterize assignmentLoad getCourseOk
        listAssignmentsOk listSectionsOk remoteOf deleteOk sectionsOf sectionOk cs
      refine ⟨?_, ?_, ?_, ?_⟩
      · simpa [resetMain] using h1
      · simpa [resetMain] using h2
      · intro h
        simp at h
      · intro hn
        simpa [resetMain] using h3 hn

/-- C7 counterexample: reset.py with the env guard satisfied, a
well-formed but empty `courses.yml` and a missing/malformed
`assignment.yml` (load result `none`) exits with code 0 — the claim
requires exit code 1 whenever a configuration source is missing or
malformed, so it fails at this input (the per-course load in reset.py
is simply never reached). -/
theorem exit_code_policy_counterexample :
    (resetMain true (some []) none (fun _ => true) (fun _ => true) (fun _ => true)
        (fun _ => []) (fun _ _ => true) (fun _ => []) (fun _ _ => true)).1 = 0
    ∧ (resetMain true (some []) none (fun _ => true) (fun _ => true) (fun _ => true)
        (fun _ => []) (fun _ _ => true) (fun _ => []) (fun _ _ => true)).1 ≠ 1 :=
  ⟨rfl, by decide⟩

/-- C7 (amended): exit-code policy.  The exit code of every script is 0
or 1.  generate_submissions.py exits 1 exactly when the env guard or
one of its up-front loads fails, and then nothing has been executed;
every one of its remote calls is caught, so every other run exits 0
regardless of entity failures.  generate_assignments.py exits 1 when
the env guard or an up-front load fails (again with nothing executed),
and ALSO when the uncaught snapshot listing at line 84 raises for some
fetched course — a crash that may follow fully processed earlier
courses.  reset.py loads `assignment.yml` only inside the course loop
and its two listing calls (lines 85 and 94) are uncaught, so it exits 1
exactly when the env guard or the `courses.yml` load fails, or some
fetched course hits the failing `assignment.yml` load or a listing
crash; with an empty course list or all fetches failing it exits 0
despite a bad `assignment.yml`, on an env/courses failure nothing has
been executed, on an `assignment.yml`-failure exit only course-skip
lines have been printed (no deletion performed), and a crash at the
section listing exits 1 with the deletions of that course already
performed (partial execution).  In every remaining run the exit code
is 0 regardless of how many caught entity operations failed. -/
theorem exit_code_policy (envOk : Bool) (coursesLoad : Option (List CourseInfo))
    (assignmentLoad : Option (List AssignmentTemplate))
    (submissionsLoad : Option (List SubmissionSpec))
    (getCourseOk listOk listAssignmentsOk listSectionsOk : Nat → Bool)
    (remoteOf : Nat → List String) (createOk assocOk deleteOk : Nat → String → Bool)
    (sectionsOf : Nat → List String) (sectionOk : Nat → String → Bool)
    (resolveUser : Nat → String → Option Nat) (enrollOk : Nat → String → Bool)
    (fetchOk : Nat → Bool) (assignmentsOf : Nat → List RemoteAssignment)
    (submitOk : Nat → String → String → Bool)
    (c0 : CourseInfo) (ts0 : List AssignmentTemplate) (rest0 : List CourseInfo) :
    (((generateAssignmentsMain envOk coursesLoad assignmentLoad getCourseOk listOk
          remoteOf createOk assocOk).1 = 1
        ↔ (envOk = false ∨ coursesLoad = none ∨ assignmentLoad = none
            ∨ ∃ c ∈ coursesLoad.getD [], getCourseOk c.canvas_id = true
                ∧ listOk c.canvas_id = false))
      ∧ ((generateAssignmentsMain envOk coursesLoad assignmentLoad getCourseOk listOk
          remoteOf createOk assocOk).1 = 0
        ∨ (generateAssignmentsMain envOk coursesLoad assignmentLoad getCourseOk listOk
          remoteOf createOk assocOk).1 = 1)
      ∧ ((envOk = false ∨ coursesLoad = none ∨ assignmentLoad = none) →
        (generateAssignmentsMain envOk coursesLoad assignmentLoad getCourseOk listOk
          remoteOf createOk assocOk).2 = []))
    ∧ (((generateSubmissionsMain envOk coursesLoad submissionsLoad getCourseOk resolveUser
          enrollOk fetchOk assignmentsOf submitOk).1 = 1
        ↔ (envOk = false ∨ coursesLoad = none ∨ submissionsLoad = none))
      ∧ ((generateSubmissionsMain envOk coursesLoad submissionsLoad getCourseOk resolveUser
          enrollOk fetchOk assignmentsOf submitOk).1 = 0
        ∨ (generateSubmissionsMain envOk coursesLoad submissionsLoad getCourseOk resolveUser
          enrollOk fetchOk assignmentsOf submitOk).1 = 1)
      ∧ ((generateSubmissionsMain envOk coursesLoad submissionsLoad getCourseOk resolveUser
          enrollOk fetchOk assignmentsOf submitOk).1 = 1 →
        (generateSubmissionsMain envOk coursesLoad submissionsLoad getCourseOk resolveUser
          enrollOk fetchOk assignmentsOf submitOk).2 = []))
    ∧ (((resetMain envOk coursesLoad assignmentLoad getCourseOk listAssignmentsOk
          listSectionsOk remoteOf deleteOk sectionsOf sectionOk).1 = 1
        ↔ (envOk = false ∨ coursesLoad = none
            ∨ ∃ c ∈ coursesLoad.getD [], getCourseOk c.canvas_id = true
                ∧ (assignmentLoad = none ∨ listAssignmentsOk c.canvas_id = false
                    ∨ listSectionsOk c.canvas_id = false)))
      ∧ ((resetMain envOk coursesLoad assignmentLoad getCourseOk listAssignmentsOk
          listSectionsOk remoteOf deleteOk sectionsOf sectionOk).1 = 0
        ∨ (resetMain envOk coursesLoad assignmentLoad getCourseOk listAssignmentsOk
          listSectionsOk remoteOf deleteOk sectionsOf sectionOk).1 = 1)
      ∧ ((envOk = false ∨ coursesLoad = none) →
        (resetMain envOk coursesLoad assignmentLoad getCourseOk listAssignmentsOk
          listSectionsOk remoteOf deleteOk sectionsOf sectionOk).2 = [])
      ∧ (assignmentLoad = none →
        ∀ e ∈ (resetMain envOk coursesLoad assignmentLoad getCourseOk listAssignmentsOk
          listSectionsOk remoteOf deleteOk sectionsOf sectionOk).2,
          ∃ cid cn, e = ResetEvent.courseError cid cn))
    ∧ (getCourseOk c0.canvas_id = true → listAssignmentsOk c0.canvas_id = true →
        listSectionsOk c0.canvas_id = false →
        resetLoop (some ts0) getCourseOk listAssignmentsOk listSectionsOk remoteOf
            deleteOk sectionsOf sectionOk (c0 :: rest0)
          = (1, resetDeletionEvents c0.canvas_id (deleteOk c0.canvas_id)
                (remoteOf c0.canvas_id) (assignments_to_delete ts0 c0))) :=
  ⟨generateAssignmentsMain_exit envOk coursesLoad assignmentLoad getCourseOk listOk
      remoteOf createOk assocOk,
   generateSubmissionsMain_exit envOk coursesLoad submissionsLoad getCourseOk resolveUser
      enrollOk fetchOk assignmentsOf submitOk,
   resetMain_exit envOk coursesLoad assignmentLoad getCourseOk listAssignmentsOk
      listSectionsOk remoteOf deleteOk sectionsOf sectionOk,
   fun hg hla hls => resetLoop_cons_crashSections ts0 getCourseOk listAssignmentsOk
      listSectionsOk remoteOf deleteOk sectionsOf sectionOk c0 rest0 hg hla hls⟩

end RubricLab
